import Mathlib

/-!
Verification development for the SmartInventory-AI repository.

Shallow embedding of:
  * `src/main.py` — the Pub/Sub-triggered alert pipeline
    (`process_sale_event`, `send_alerts`, `send_telegram_message`,
    the module-level `STOCK_LEVELS` dictionary and the two thresholds);
  * `src/ai/smart_agent.py` / `src/ai/inventory_agent.py` — the reorder
    calculator `InventoryAgent._calculate_reorder` and the hardcoded
    `PRODUCT_DB` of `smart_agent.py`.

Python dictionaries are embedded as association lists over `String`;
Python ints as `Int`; Python floats carrying money amounts as `ℚ`
(every literal involved — 120, 1.5, prices — is exactly representable,
and the code only compares or multiplies them, so `ℚ` is a faithful
model of the float arithmetic actually performed).  A Python function
that may raise is embedded with an explicit outcome argument; the
`try/except` blocks of the source become total Lean functions.
-/

namespace SmartInventory

/-! ### Python dictionary primitives -/

/-- `d.get(k)` / `k in d` on a Python dict, embedded as an association
list kept in insertion order. -/
def dictGet {α : Type} : List (String × α) → String → Option α
  | [], _ => none
  | (k', v) :: rest, k => if k' = k then some v else dictGet rest k

/-- `d[k] = v` on a Python dict: overwrite in place if the key exists
(keeping its position, as CPython dicts do), otherwise append. -/
def dictSet {α : Type} : List (String × α) → String → α → List (String × α)
  | [], k, v => [(k, v)]
  | (k', v') :: rest, k, v =>
      if k' = k then (k, v) :: rest else (k', v') :: dictSet rest k v

theorem dictGet_dictSet {α : Type} (d : List (String × α)) (k : String) (v : α) :
    dictGet (dictSet d k v) k = some v := by
  induction d with
  | nil => simp [dictGet, dictSet]
  | cons hd tl ih =>
      obtain ⟨k', v'⟩ := hd
      by_cases h : k' = k
      · simp [dictGet, dictSet, h]
      · simp [dictGet, dictSet, h, ih]

/-! ### Data model of `src/main.py` -/

/-- The decoded JSON payload of a sale event.  Every field is optional:
`process_sale_event` reads each one with `data.get(...)` and a default,
so a missing key is `none` here.  (`main.py` lines 74–80.) -/
structure SaleData where
  transaction_id : Option String
  product_id : Option String
  product_name : Option String
  quantity : Option Int
  price : Option ℚ
  total : Option ℚ
  store_id : Option String
  category : Option String
  timestamp : Option String
deriving DecidableEq

inductive AlertType
  | LOW_STOCK
  | HIGH_VALUE
deriving DecidableEq

/-- One alert dict as built in `main.py` lines 91–100 / 105–115.
The `emoji` and f-string decoration of the detail lines is rendered
with plain `toString`. -/
structure Alert where
  alertType : AlertType
  title : String
  details : List String
deriving DecidableEq

/-- The observable `print` calls of `main.py`, one constructor per
distinct `print` site that the spec's error-handling contract talks
about. -/
inductive LogEntry
  | decodeFailed
  | processing (txid : String)
  | lowStock (name : String) (stock : Int)
  | highValue (total : ℚ) (store : String)
  | credsMissing
  | telegramSent
  | telegramError
  | processed (txid : Option String)
deriving DecidableEq

/-- The environment-derived configuration of `main.py`: the two
thresholds (lines 50–51) and the Telegram credentials read inside
`send_alerts` (lines 127–128).  `none` models an unset variable. -/
structure Config where
  HIGH_VALUE_THRESHOLD : ℚ
  LOW_STOCK_THRESHOLD : Int
  TELEGRAM_BOT_TOKEN : Option String
  TELEGRAM_CHAT_ID : Option String
deriving DecidableEq

/-- Defaults of `main.py` lines 50–51, credentials unset. -/
def defaultConfig : Config :=
  { HIGH_VALUE_THRESHOLD := 120
    LOW_STOCK_THRESHOLD := 5
    TELEGRAM_BOT_TOKEN := none
    TELEGRAM_CHAT_ID := none }

/-- The hardcoded default stock dictionary of `load_stock_levels`
(`main.py` lines 31–33), used when no knowledge-base file overrides
it. -/
def STOCK_LEVELS : List (String × Int) :=
  [("SKU001", 50), ("SKU002", 30), ("SKU003", 20), ("SKU004", 15), ("SKU005", 10)]

/-! ### The notification dispatcher (`send_telegram_message`, `send_alerts`) -/

/-- Outcome of the single `requests.post(...)` + `raise_for_status()`
pair inside `send_telegram_message`: `ok` is a 2xx response, `error`
carries the message of the `requests.exceptions.RequestException`
raised by a network error, a timeout, or a non-2xx status. -/
def NetOutcome : Type := Except String Unit

/-- Python truthiness of an optional string (`not bot_token` is true
for both `None` and `""`). -/
def truthy : Option String → Bool
  | none => false
  | some s => s != ""

/-- `send_telegram_message` (`main.py` lines 147–161).  The body wraps
the network call in `try/except RequestException`, so the embedding is
a total function of the call's outcome: it never propagates an
exception, and logs exactly one line either way. -/
def send_telegram_message (outcome : NetOutcome) : List LogEntry :=
  match outcome with
  | .ok _ => [.telegramSent]
  | .error _ => [.telegramError]

/-- The `for alert in alerts` loop of `send_alerts` (lines 134–144):
one `send_telegram_message` call per alert, in order.  `net n` is the
outcome of the `n`-th call made for this event. -/
def sendLoop (net : Nat → NetOutcome) (i : Nat) : List Alert → List LogEntry
  | [] => []
  | _ :: rest => send_telegram_message (net i) ++ sendLoop net (i + 1) rest

/-- `send_alerts` (`main.py` lines 125–144): skip (with a log) when
credentials are missing or empty, otherwise one network call per
alert. -/
def send_alerts (cfg : Config) (alerts : List Alert) (net : Nat → NetOutcome) :
    List LogEntry :=
  if truthy cfg.TELEGRAM_BOT_TOKEN && truthy cfg.TELEGRAM_CHAT_ID then
    sendLoop net 0 alerts
  else
    [.credsMissing]

/-! ### `process_sale_event` -/

/-- The field extraction of `main.py` lines 74–80: every `data.get`
with its default.  `now` stands for `datetime.now().isoformat()`. -/
structure EventFields where
  product_id : String
  product_name : String
  quantity : Int
  total : ℚ
  store_id : String
  category : String
  timestamp : String
deriving DecidableEq

def extractFields (data : SaleData) (now : String) : EventFields :=
  let pid := data.product_id.getD "UNKNOWN"
  { product_id := pid
    product_name := data.product_name.getD pid
    quantity := data.quantity.getD 1
    total := data.total.getD (data.price.getD 0)
    store_id := data.store_id.getD "UNKNOWN"
    category := data.category.getD "UNKNOWN"
    timestamp := data.timestamp.getD now }

/-- The LOW_STOCK alert dict (`main.py` lines 91–100). -/
def lowStockAlert (name : String) (stock : Int) (store : String) : Alert :=
  { alertType := .LOW_STOCK
    title := "Low Stock Alert!"
    details :=
      ["Product: " ++ name,
       "Remaining: " ++ toString stock ++ " units",
       "Last Sale: " ++ store] }

/-- The HIGH_VALUE alert dict (`main.py` lines 105–115). -/
def highValueAlert (total : ℚ) (name store cat : String) : Alert :=
  { alertType := .HIGH_VALUE
    title := "High-Value Sale Detected!"
    details :=
      ["Amount: $" ++ toString total,
       "Product: " ++ name,
       "Store: " ++ store,
       "Category: " ++ cat] }

/-- Result of one step of the pipeline: the new ledger plus the alerts
and logs it appended. -/
structure StepOut where
  stock : List (String × Int)
  alerts : List Alert
  logs : List LogEntry
deriving DecidableEq

/-- Step 3 of `process_sale_event` (`main.py` lines 85–101): if the
product id is tracked, decrement its stock (no clamp) and emit a
LOW_STOCK alert when the new stock is `≤ LOW_STOCK_THRESHOLD`;
otherwise leave the ledger untouched. -/
def updateStock (stock : List (String × Int)) (f : EventFields)
    (lowThr : Int) : StepOut :=
  match dictGet stock f.product_id with
  | some s =>
      let newStock := s - f.quantity
      let stock' := dictSet stock f.product_id newStock
      if newStock ≤ lowThr then
        ⟨stock', [lowStockAlert f.product_name newStock f.store_id],
          [.lowStock f.product_name newStock]⟩
      else
        ⟨stock', [], []⟩
  | none => ⟨stock, [], []⟩

/-- Step 4 of `process_sale_event` (`main.py` lines 104–116): the
high-value check `total > HIGH_VALUE_THRESHOLD`, strict and
independent of the ledger. -/
def highValueStep (f : EventFields) (thr : ℚ) : List Alert × List LogEntry :=
  if thr < f.total then
    ([highValueAlert f.total f.product_name f.store_id f.category],
     [.highValue f.total f.store_id])
  else
    ([], [])

/-- What one invocation of `process_sale_event` produced: the global
`STOCK_LEVELS` after the call, the alerts built for the event, and the
log lines printed, in order. -/
structure ProcResult where
  ledger : List (String × Int)
  alerts : List Alert
  logs : List LogEntry
deriving DecidableEq

/-- `process_sale_event` (`main.py` lines 54–122).  `payload` is the
result of the base64 + JSON decode of step 1: `none` when that decode
raised (the `except` branch logs and returns), `some data` otherwise.
`stock` is the module-level `STOCK_LEVELS` at entry, `net` the
outcomes of the Telegram calls made for this event, `now` the current
timestamp.  The function is total: no exception escapes. -/
def process_sale_event (payload : Option SaleData)
    (stock : List (String × Int)) (cfg : Config)
    (net : Nat → NetOutcome) (now : String) : ProcResult :=
  match payload with
  | none => ⟨stock, [], [.decodeFailed]⟩
  | some data =>
      let f := extractFields data now
      let step := updateStock stock f cfg.LOW_STOCK_THRESHOLD
      let hv := highValueStep f cfg.HIGH_VALUE_THRESHOLD
      let alerts := step.alerts ++ hv.1
      let sendLogs :=
        if alerts.isEmpty then [] else send_alerts cfg alerts net
      { ledger := step.stock
        alerts := alerts
        logs :=
          [.processing (data.transaction_id.getD "UNKNOWN")] ++ step.logs ++
            hv.2 ++ sendLogs ++ [.processed data.transaction_id] }

/-- Number of alerts of a given type among those built for an event. -/
def countAlerts (t : AlertType) (l : List Alert) : Nat :=
  l.countP (fun a => a.alertType = t)

/-- All Telegram calls succeed (2xx responses throughout). -/
def netOk : Nat → NetOutcome := fun _ => .ok ()

/-! ### Helper lemmas about the pipeline steps -/

theorem countAlerts_append (t : AlertType) (l₁ l₂ : List Alert) :
    countAlerts t (l₁ ++ l₂) = countAlerts t l₁ + countAlerts t l₂ :=
  List.countP_append _ _ _

theorem countAlerts_LOW_highValueStep (f : EventFields) (thr : ℚ) :
    countAlerts .LOW_STOCK (highValueStep f thr).1 = 0 := by
  unfold highValueStep
  split <;> simp [countAlerts, highValueAlert]

theorem countAlerts_HIGH_updateStock (stock : List (String × Int))
    (f : EventFields) (lowThr : Int) :
    countAlerts .HIGH_VALUE (updateStock stock f lowThr).alerts = 0 := by
  unfold updateStock
  rcases dictGet stock f.product_id with _ | s
  · simp [countAlerts]
  · dsimp only
    split <;> simp [countAlerts, lowStockAlert]

theorem alerts_eq (data : SaleData) (stock : List (String × Int))
    (cfg : Config) (net : Nat → NetOutcome) (now : String) :
    (process_sale_event (some data) stock cfg net now).alerts
      = (updateStock stock (extractFields data now) cfg.LOW_STOCK_THRESHOLD).alerts
          ++ (highValueStep (extractFields data now) cfg.HIGH_VALUE_THRESHOLD).1 := rfl

theorem ledger_eq (data : SaleData) (stock : List (String × Int))
    (cfg : Config) (net : Nat → NetOutcome) (now : String) :
    (process_sale_event (some data) stock cfg net now).ledger
      = (updateStock stock (extractFields data now) cfg.LOW_STOCK_THRESHOLD).stock := rfl

/-! ### C1 — exact, unclamped stock decrement -/

/-- C1: for every product id tracked in the ledger with current stock
`S`, processing a sale event for that product with quantity `Q`
updates the entry to exactly `S - Q`; there is no clamp at zero, so
when `Q > S` the stored stock is negative. -/
theorem C1_stock_decrement_exact (data : SaleData)
    (stock : List (String × Int)) (cfg : Config) (net : Nat → NetOutcome)
    (now : String) (pid : String) (S Q : Int)
    (hpid : data.product_id = some pid) (hQ : data.quantity = some Q)
    (hS : dictGet stock pid = some S) :
    dictGet (process_sale_event (some data) stock cfg net now).ledger pid
        = some (S - Q)
      ∧ (S < Q → S - Q < 0) := by
  have hf : (extractFields data now).product_id = pid := by
    simp [extractFields, hpid]
  have hq : (extractFields data now).quantity = Q := by
    simp [extractFields, hQ]
  refine ⟨?_, by omega⟩
  rw [ledger_eq]
  unfold updateStock
  rw [hf, hS]
  dsimp only
  rw [hq]
  split <;> exact dictGet_dictSet stock pid (S - Q)

/-- C1 witness: selling 12 units of SKU005 (stock 10) drives the
ledger entry to `-2`. -/
theorem C1_stock_decrement_exact_witness :
    dictGet (process_sale_event
        (some ⟨some "T1", some "SKU005", none, some 12, none, none, none, none, none⟩)
        STOCK_LEVELS defaultConfig netOk "t").ledger "SKU005" = some (-2)
      ∧ ((10 : Int) < 12 → (10 : Int) - 12 < 0) := by
  have h := C1_stock_decrement_exact
    ⟨some "T1", some "SKU005", none, some 12, none, none, none, none, none⟩
    STOCK_LEVELS defaultConfig netOk "t" "SKU005" 10 12 rfl rfl (by decide)
  exact ⟨h.1, h.2⟩

/-! ### C2 — LOW_STOCK alert exactly when tracked and at/below threshold -/

/-- C2: a sale on a tracked product produces exactly one LOW_STOCK
alert when the post-sale stock is `≤` the low-stock threshold and none
when it is above; a sale on an untracked product never produces a
LOW_STOCK alert. -/
theorem C2_low_stock_alert_iff (data : SaleData)
    (stock : List (String × Int)) (cfg : Config) (net : Nat → NetOutcome)
    (now : String) (pid : String)
    (hpid : data.product_id = some pid) :
    (∀ Q S, data.quantity = some Q → dictGet stock pid = some S →
        countAlerts .LOW_STOCK
            (process_sale_event (some data) stock cfg net now).alerts
          = if S - Q ≤ cfg.LOW_STOCK_THRESHOLD then 1 else 0)
      ∧ (dictGet stock pid = none →
          countAlerts .LOW_STOCK
              (process_sale_event (some data) stock cfg net now).alerts = 0) := by
  have hf : (extractFields data now).product_id = pid := by
    simp [extractFields, hpid]
  constructor
  · intro Q S hQ hS
    have hq : (extractFields data now).quantity = Q := by
      simp [extractFields, hQ]
    rw [alerts_eq, countAlerts_append, countAlerts_LOW_highValueStep]
    unfold updateStock
    rw [hf, hS]
    dsimp only
    rw [hq]
    split <;> simp_all [countAlerts, lowStockAlert]
  · intro hS
    rw [alerts_eq, countAlerts_append, countAlerts_LOW_highValueStep]
    unfold updateStock
    rw [hf, hS]
    simp [countAlerts]

/-- C2 witness: SKU005 at stock 10, quantity 6 → post-sale stock 4 ≤ 5
gives exactly one LOW_STOCK alert; untracked SKU999 gives none. -/
theorem C2_low_stock_alert_iff_witness :
    countAlerts .LOW_STOCK (process_sale_event
        (some ⟨some "T2", some "SKU005", none, some 6, none, none, none, none, none⟩)
        STOCK_LEVELS defaultConfig netOk "t").alerts = 1
      ∧ countAlerts .LOW_STOCK (process_sale_event
          (some ⟨some "T3", some "SKU999", none, some 6, none, none, none, none, none⟩)
          STOCK_LEVELS defaultConfig netOk "t").alerts = 0 := by
  constructor
  · have h := (C2_low_stock_alert_iff
      ⟨some "T2", some "SKU005", none, some 6, none, none, none, none, none⟩
      STOCK_LEVELS defaultConfig netOk "t" "SKU005" rfl).1 6 10 rfl (by decide)
    exact h.trans (by decide)
  · exact (C2_low_stock_alert_iff
      ⟨some "T3", some "SKU999", none, some 6, none, none, none, none, none⟩
      STOCK_LEVELS defaultConfig netOk "t" "SKU999" rfl).2 (by decide)

/-! ### C3 — HIGH_VALUE alert iff total strictly above threshold -/

/-- C3: every sale event produces exactly one HIGH_VALUE alert if and
only if its total (defaulting to the price, then to 0) is strictly
greater than the high-value threshold; equality produces none, and the
rule is evaluated for every event, tracked or not (the statement
quantifies over every ledger). -/
theorem C3_high_value_alert_iff (data : SaleData)
    (stock : List (String × Int)) (cfg : Config) (net : Nat → NetOutcome)
    (now : String) :
    countAlerts .HIGH_VALUE
        (process_sale_event (some data) stock cfg net now).alerts
      = if cfg.HIGH_VALUE_THRESHOLD < data.total.getD (data.price.getD 0)
        then 1 else 0 := by
  rw [alerts_eq, countAlerts_append, countAlerts_HIGH_updateStock]
  have ht : (extractFields data now).total = data.total.getD (data.price.getD 0) := rfl
  unfold highValueStep
  rw [ht]
  split <;> simp [countAlerts, highValueAlert]

/-! ### C8 — untracked product: ledger untouched, no alerts below threshold -/

/-- C8: a sale event whose (possibly defaulted) product id is not in
the ledger leaves the ledger completely unchanged, and when its total
does not exceed the high-value threshold it produces zero alerts. -/
theorem C8_untracked_frame (data : SaleData) (stock : List (String × Int))
    (cfg : Config) (net : Nat → NetOutcome) (now : String)
    (h : dictGet stock (data.product_id.getD "UNKNOWN") = none) :
    (process_sale_event (some data) stock cfg net now).ledger = stock
      ∧ (data.total.getD (data.price.getD 0) ≤ cfg.HIGH_VALUE_THRESHOLD →
          (process_sale_event (some data) stock cfg net now).alerts = []) := by
  have hf : dictGet stock (extractFields data now).product_id = none := h
  constructor
  · rw [ledger_eq]
    unfold updateStock
    rw [hf]
  · intro hle
    rw [alerts_eq]
    have h1 : (updateStock stock (extractFields data now)
        cfg.LOW_STOCK_THRESHOLD).alerts = [] := by
      unfold updateStock
      rw [hf]
    have ht : (extractFields data now).total = data.total.getD (data.price.getD 0) := rfl
    have h2 : (highValueStep (extractFields data now)
        cfg.HIGH_VALUE_THRESHOLD).1 = [] := by
      unfold highValueStep
      rw [ht, if_neg (not_lt.mpr hle)]
    rw [h1, h2]
    rfl

/-- C8 witness: the spec's own example — unknown product SKU999 with
total 50 against the default ledger and thresholds: ledger unchanged,
zero alerts. -/
theorem C8_untracked_frame_witness :
    (process_sale_event
        (some ⟨some "T4", some "SKU999", none, none, none, some 50, none, none, none⟩)
        STOCK_LEVELS defaultConfig netOk "t").ledger = STOCK_LEVELS
      ∧ (process_sale_event
          (some ⟨some "T4", some "SKU999", none, none, none, some 50, none, none, none⟩)
          STOCK_LEVELS defaultConfig netOk "t").alerts = [] := by
  have h := C8_untracked_frame
    ⟨some "T4", some "SKU999", none, none, none, some 50, none, none, none⟩
    STOCK_LEVELS defaultConfig netOk "t" (by decide)
  exact ⟨h.1, h.2 (by decide)⟩

/-! ### C6 — delivery failures are contained -/

/-- Whether one Telegram call's outcome is a delivery failure
(`RequestException`: network error, timeout, or non-2xx). -/
def isFailure : NetOutcome → Bool
  | .ok _ => false
  | .error _ => true

theorem count_telegramError_sendLoop (net : Nat → NetOutcome) (i : Nat)
    (l : List Alert) :
    (sendLoop net i l).count .telegramError
      = (List.range l.length).countP (fun j => isFailure (net (i + j))) := by
  induction l generalizing i with
  | nil => simp [sendLoop]
  | cons a l ih =>
      have h1 : sendLoop net i (a :: l)
          = send_telegram_message (net i) ++ sendLoop net (i + 1) l := rfl
      rw [h1, List.count_append, ih (i + 1)]
      rw [List.length_cons, List.range_succ_eq_map, List.countP_cons,
        List.countP_map]
      have h2 : (send_telegram_message (net i)).count LogEntry.telegramError
          = if isFailure (net i) then 1 else 0 := by
        rcases net i with u | e <;> simp [send_telegram_message, isFailure]
      rw [h2]
      have h3 : List.countP
            ((fun j => isFailure (net (i + j))) ∘ Nat.succ) (List.range l.length)
          = List.countP (fun j => isFailure (net (i + 1 + j)))
              (List.range l.length) := by
        apply List.countP_congr
        intro j _
        simp only [Function.comp_apply]
        have harith : i + Nat.succ j = i + 1 + j := by omega
        rw [harith]
      rw [h3]
      cases hfail : isFailure (net i) <;> simp [hfail, Nat.add_comm]

theorem count_telegramError_other (data : SaleData)
    (stock : List (String × Int)) (cfg : Config) (now : String) :
    (updateStock stock (extractFields data now)
        cfg.LOW_STOCK_THRESHOLD).logs.count .telegramError = 0
      ∧ (highValueStep (extractFields data now)
          cfg.HIGH_VALUE_THRESHOLD).2.count .telegramError = 0 := by
  constructor
  · unfold updateStock
    rcases dictGet stock (extractFields data now).product_id with _ | s
    · simp
    · dsimp only
      split <;> simp
  · unfold highValueStep
    split <;> simp

/-- C6: when Telegram credentials are configured, every alert whose
outbound call fails is logged as a failure exactly once (the count of
error logs equals the count of failed calls), the event is still
reported as processed, and the already-applied ledger mutation is the
same as it would be had every call succeeded.  No exception escapes:
`process_sale_event` and `send_telegram_message` are total functions
of the call outcomes, mirroring the `try/except` of the source. -/
theorem C6_delivery_failure_contained (data : SaleData)
    (stock : List (String × Int)) (cfg : Config) (net : Nat → NetOutcome)
    (now : String)
    (hb : truthy cfg.TELEGRAM_BOT_TOKEN = true)
    (hc : truthy cfg.TELEGRAM_CHAT_ID = true) :
    (process_sale_event (some data) stock cfg net now).logs.count .telegramError
        = (List.range
            (process_sale_event (some data) stock cfg net now).alerts.length).countP
            (fun j => isFailure (net j))
      ∧ LogEntry.processed data.transaction_id
          ∈ (process_sale_event (some data) stock cfg net now).logs
      ∧ (process_sale_event (some data) stock cfg net now).ledger
          = (process_sale_event (some data) stock cfg netOk now).ledger := by
  refine ⟨?_, ?_, rfl⟩
  · show ([LogEntry.processing (data.transaction_id.getD "UNKNOWN")] ++ _ ++ _
        ++ _ ++ [LogEntry.processed data.transaction_id]).count .telegramError = _
    rw [List.count_append, List.count_append, List.count_append,
      List.count_append]
    have hother := count_telegramError_other data stock cfg now
    rw [hother.1, hother.2]
    have hsend : (if ((updateStock stock (extractFields data now)
            cfg.LOW_STOCK_THRESHOLD).alerts
          ++ (highValueStep (extractFields data now)
            cfg.HIGH_VALUE_THRESHOLD).1).isEmpty then ([] : List LogEntry)
        else send_alerts cfg
          ((updateStock stock (extractFields data now) cfg.LOW_STOCK_THRESHOLD).alerts
            ++ (highValueStep (extractFields data now) cfg.HIGH_VALUE_THRESHOLD).1)
          net).count .telegramError
        = (List.range
            ((updateStock stock (extractFields data now) cfg.LOW_STOCK_THRESHOLD).alerts
              ++ (highValueStep (extractFields data now)
                cfg.HIGH_VALUE_THRESHOLD).1).length).countP
            (fun j => isFailure (net j)) := by
      rcases halerts : (updateStock stock (extractFields data now)
            cfg.LOW_STOCK_THRESHOLD).alerts
          ++ (highValueStep (extractFields data now)
            cfg.HIGH_VALUE_THRESHOLD).1 with _ | ⟨a, rest⟩
      · simp
      · rw [List.isEmpty_cons, if_neg (by simp)]
        unfold send_alerts
        rw [if_pos (by rw [hb, hc]; rfl)]
        have h := count_telegramError_sendLoop net 0 (a :: rest)
        simpa using h
    rw [hsend]
    rw [alerts_eq]
    simp
  · show LogEntry.processed data.transaction_id ∈ [LogEntry.processing _] ++ _ ++ _
        ++ _ ++ [LogEntry.processed data.transaction_id]
    simp

/-- C6 witness: SKU005 sold down to 4 units with total 200 raises two
alerts; with the first Telegram call failing and the second
succeeding, exactly one failure is logged, the event is reported
processed, and the ledger equals the all-success ledger. -/
theorem C6_delivery_failure_contained_witness :
    (process_sale_event
        (some ⟨some "T5", some "SKU005", none, some 6, none, some 200, none, none, none⟩)
        STOCK_LEVELS
        ⟨120, 5, some "tok", some "chat"⟩
        (fun n => if n = 0 then .error "timeout" else .ok ()) "t").logs.count
          .telegramError = 1
      ∧ LogEntry.processed (some "T5")
          ∈ (process_sale_event
              (some ⟨some "T5", some "SKU005", none, some 6, none, some 200, none, none, none⟩)
              STOCK_LEVELS ⟨120, 5, some "tok", some "chat"⟩
              (fun n => if n = 0 then .error "timeout" else .ok ()) "t").logs
      ∧ (process_sale_event
            (some ⟨some "T5", some "SKU005", none, some 6, none, some 200, none, none, none⟩)
            STOCK_LEVELS ⟨120, 5, some "tok", some "chat"⟩
            (fun n => if n = 0 then .error "timeout" else .ok ()) "t").ledger
          = (process_sale_event
              (some ⟨some "T5", some "SKU005", none, some 6, none, some 200, none, none, none⟩)
              STOCK_LEVELS ⟨120, 5, some "tok", some "chat"⟩ netOk "t").ledger := by
  have h := C6_delivery_failure_contained
    ⟨some "T5", some "SKU005", none, some 6, none, some 200, none, none, none⟩
    STOCK_LEVELS ⟨120, 5, some "tok", some "chat"⟩
    (fun n => if n = 0 then .error "timeout" else .ok ()) "t"
    (by decide) (by decide)
  exact ⟨h.1.trans (by decide), h.2.1, h.2.2⟩

/-! ### C7 — what is actually dropped, and which defaults apply -/

/-- C7 counterexample: a syntactically valid JSON payload that is
missing both required fields (`transaction_id` and `product_id`) but
carries `total = 200` is NOT dropped — the pipeline still produces an
alert (a HIGH_VALUE one), contradicting the claim that such an event
is dropped with no alert produced. -/
theorem C7_missing_required_fields_not_dropped :
    (process_sale_event
        (some ⟨none, none, none, none, none, some 200, none, none, none⟩)
        STOCK_LEVELS defaultConfig netOk "t").alerts ≠ [] := by
  decide

/-- C7 amended: only a payload that fails to decode as valid JSON is
logged and dropped (no alert, no ledger change); a payload missing
`transaction_id` or `product_id` is processed anyway, with
`product_id` defaulting to `"UNKNOWN"` — behaving exactly as if that
value had been supplied — and every other absent field likewise takes
its documented default (`quantity = 1`, `total` falls back to `price`
and then to 0, `store_id = "UNKNOWN"`, `timestamp = now`). -/
theorem C7_decode_failure_dropped_and_defaults
    (stock : List (String × Int)) (cfg : Config) (net : Nat → NetOutcome)
    (now : String) (d : SaleData) (p : ℚ) :
    process_sale_event none stock cfg net now
        = ⟨stock, [], [.decodeFailed]⟩
      ∧ process_sale_event (some { d with product_id := none }) stock cfg net now
          = process_sale_event (some { d with product_id := some "UNKNOWN" })
              stock cfg net now
      ∧ process_sale_event (some { d with quantity := none }) stock cfg net now
          = process_sale_event (some { d with quantity := some 1 })
              stock cfg net now
      ∧ process_sale_event
            (some { d with total := none, price := some p }) stock cfg net now
          = process_sale_event
              (some { d with total := some p, price := some p }) stock cfg net now
      ∧ process_sale_event
            (some { d with total := none, price := none }) stock cfg net now
          = process_sale_event
              (some { d with total := some 0, price := none }) stock cfg net now
      ∧ process_sale_event (some { d with store_id := none }) stock cfg net now
          = process_sale_event (some { d with store_id := some "UNKNOWN" })
              stock cfg net now
      ∧ process_sale_event (some { d with timestamp := none }) stock cfg net now
          = process_sale_event (some { d with timestamp := some now })
              stock cfg net now :=
  ⟨rfl, rfl, rfl, rfl, rfl, rfl, rfl⟩

/-! ### The reorder calculator
(`InventoryAgent._calculate_reorder`, identical in
`src/ai/smart_agent.py` lines 212–254 and
`src/ai/inventory_agent.py` lines 200–243) -/

/-- One entry of the hardcoded `PRODUCT_DB` of `smart_agent.py`
(lines 63–104). -/
structure Product where
  name : String
  category : String
  price : ℚ
  reorder_point : Nat
  supplier : String
  lead_time : Nat
deriving DecidableEq

/-- `smart_agent.py` lines 63–104. -/
def PRODUCT_DB : List (String × Product) :=
  [("SKU001", ⟨"Red T-Shirt", "T-Shirt", 29.99, 10, "SUP001", 5⟩),
   ("SKU002", ⟨"Blue Jeans", "Jeans", 79.99, 8, "SUP001", 7⟩),
   ("SKU003", ⟨"White Sneakers", "Sneakers", 129.99, 5, "SUP002", 10⟩),
   ("SKU004", ⟨"Black Dress", "Dress", 99.99, 5, "SUP003", 7⟩),
   ("SKU005", ⟨"Winter Jacket", "Jacket", 149.99, 3, "SUP002", 14⟩)]

/-- Python's `int(...)` applied to an exact value: truncation toward
zero. -/
def pyInt (q : ℚ) : Int := if 0 ≤ q then ⌊q⌋ else ⌈q⌉

/-- The `urgency_multiplier` dict lookup with default
(`{"low": 1.0, "normal": 1.5, "high": 2.0}.get(urgency, 1.5)`,
lines 228–229 of `smart_agent.py`). -/
def urgency_multiplier (urgency : String) : ℚ :=
  if urgency = "low" then 1
  else if urgency = "normal" then 3 / 2
  else if urgency = "high" then 2
  else 3 / 2

/-- `recommended_qty = int(reorder_point * multiplier * 2)` (line 231). -/
def recommended_qty (reorder_point : Nat) (urgency : String) : Int :=
  pyInt ((reorder_point : ℚ) * urgency_multiplier urgency * 2)

/-- The three status strings of lines 233–239, as an enumeration. -/
inductive ReorderStatus
  | urgent
  | warning
  | adequate
deriving DecidableEq

/-- The `if/elif/else` classification of lines 233–239.  The float
comparison `current_stock <= reorder_point * 1.5` is exact for these
values and is taken in `ℚ`. -/
def reorder_status (current_stock : Int) (reorder_point : Nat) : ReorderStatus :=
  if current_stock ≤ (reorder_point : Int) then .urgent
  else if (current_stock : ℚ) ≤ (reorder_point : ℚ) * (3 / 2) then .warning
  else .adequate

/-- The values interpolated into the report string returned by
`_calculate_reorder` (lines 241–254). -/
structure ReorderReport where
  status : ReorderStatus
  current_stock : Int
  reorder_point : Nat
  lead_time : Nat
  recommended_qty : Int
  estimated_cost : ℚ
deriving DecidableEq

/-- `_calculate_reorder` (`smart_agent.py` lines 212–254,
`inventory_agent.py` lines 200–243): `none` is the
`"Product ... not found."` early return; otherwise the report's
computed values.  `estimated_cost` is
`product['price'] * 0.6 * recommended_qty` (line 253). -/
def calculate_reorder (product_id : String) (current_stock : Int)
    (urgency : String) : Option ReorderReport :=
  match dictGet PRODUCT_DB product_id with
  | none => none
  | some product =>
      let q := recommended_qty product.reorder_point urgency
      some
        { status := reorder_status current_stock product.reorder_point
          current_stock := current_stock
          reorder_point := product.reorder_point
          lead_time := product.lead_time
          recommended_qty := q
          estimated_cost := product.price * (6 / 10) * q }

/-! ### Closed forms for the recommended quantity -/

theorem pyInt_eq_floor (q : ℚ) (h : 0 ≤ q) : pyInt q = ⌊q⌋ := by
  simp [pyInt, h]

theorem pyInt_natCast (n : Nat) : pyInt (n : ℚ) = n := by
  rw [pyInt_eq_floor _ (by positivity)]
  exact_mod_cast Int.floor_natCast n

theorem recommended_qty_low (rp : Nat) :
    recommended_qty rp "low" = 2 * rp := by
  have h : (rp : ℚ) * urgency_multiplier "low" * 2 = ((2 * rp : Nat) : ℚ) := by
    simp [urgency_multiplier]
    ring
  rw [recommended_qty, h, pyInt_natCast]
  omega

theorem recommended_qty_normal (rp : Nat) :
    recommended_qty rp "normal" = 3 * rp := by
  have h : (rp : ℚ) * urgency_multiplier "normal" * 2 = ((3 * rp : Nat) : ℚ) := by
    simp [urgency_multiplier]
    ring
  rw [recommended_qty, h, pyInt_natCast]
  omega

theorem recommended_qty_high (rp : Nat) :
    recommended_qty rp "high" = 4 * rp := by
  have h : (rp : ℚ) * urgency_multiplier "high" * 2 = ((4 * rp : Nat) : ℚ) := by
    simp [urgency_multiplier]
    ring
  rw [recommended_qty, h, pyInt_natCast]
  omega

theorem urgency_multiplier_nonneg (u : String) : 0 ≤ urgency_multiplier u := by
  unfold urgency_multiplier
  split
  · norm_num
  · split
    · norm_num
    · split <;> norm_num

theorem urgency_multiplier_fallback (u : String)
    (h1 : u ≠ "low") (h2 : u ≠ "normal") (h3 : u ≠ "high") :
    urgency_multiplier u = 3 / 2 := by
  simp [urgency_multiplier, h1, h2, h3]

theorem urgency_multiplier_one_le (u : String) : 1 ≤ urgency_multiplier u := by
  unfold urgency_multiplier
  split
  · norm_num
  · split
    · norm_num
    · split <;> norm_num

theorem dictGet_mem {α : Type} (d : List (String × α)) (k : String) (v : α)
    (h : dictGet d k = some v) : (k, v) ∈ d := by
  induction d with
  | nil => simp [dictGet] at h
  | cons hd tl ih =>
      obtain ⟨k', v'⟩ := hd
      rw [dictGet] at h
      by_cases hk : k' = k
      · rw [if_pos hk] at h
        injection h with h
        simp [hk, h]
      · rw [if_neg hk] at h
        simp [ih h]

theorem PRODUCT_DB_reorder_point_pos (pid : String) (product : Product)
    (h : dictGet PRODUCT_DB pid = some product) :
    1 ≤ product.reorder_point := by
  have hmem := dictGet_mem _ _ _ h
  simp only [PRODUCT_DB, List.mem_cons, List.mem_singleton, Prod.mk.injEq,
    List.not_mem_nil, or_false] at hmem
  rcases hmem with ⟨_, rfl⟩ | ⟨_, rfl⟩ | ⟨_, rfl⟩ | ⟨_, rfl⟩ | ⟨_, rfl⟩ <;> decide

theorem recommended_qty_pos (rp : Nat) (u : String) (h : 1 ≤ rp) :
    0 < recommended_qty rp u := by
  have hm := urgency_multiplier_one_le u
  have hrp : (1 : ℚ) ≤ (rp : ℚ) := by exact_mod_cast h
  have harg : (1 : ℚ) ≤ (rp : ℚ) * urgency_multiplier u * 2 := by nlinarith
  rw [recommended_qty, pyInt_eq_floor _ (by linarith)]
  have hfl : (1 : Int) ≤ ⌊(rp : ℚ) * urgency_multiplier u * 2⌋ :=
    Int.le_floor.mpr (by exact_mod_cast harg)
  omega

/-- The float comparison `current_stock <= reorder_point * 1.5`,
expressed over the integers. -/
theorem rat_cond_le_iff (cs : Int) (rp : Nat) :
    ((cs : ℚ) ≤ (rp : ℚ) * (3 / 2)) ↔ (2 * cs ≤ 3 * (rp : Int)) := by
  constructor
  · intro h
    have h3 : ((2 * cs : Int) : ℚ) ≤ ((3 * (rp : Int) : Int) : ℚ) := by
      push_cast
      linarith
    exact_mod_cast h3
  · intro h
    have h3 : ((2 * cs : Int) : ℚ) ≤ ((3 * (rp : Int) : Int) : ℚ) := by
      exact_mod_cast h
    push_cast at h3
    linarith

theorem rat_cond_lt_iff (cs : Int) (rp : Nat) :
    ((rp : ℚ) * (3 / 2) < (cs : ℚ)) ↔ (3 * (rp : Int) < 2 * cs) := by
  rw [← not_le, ← not_le]
  exact not_congr (rat_cond_le_iff cs rp)

/-! ### C4 — recommended quantity formula -/

/-- C4: for every product found in the database, the recommended order
quantity is `floor(reorder_point * multiplier * 2)` where the
multiplier is 1.0 for "low", 1.5 for "normal", 2.0 for "high", and any
unrecognized urgency string falls back to 1.5 (the `int(...)`
truncation of the source coincides with `floor` because the operand is
nonnegative). -/
theorem C4_recommended_qty_formula (product_id : String) (product : Product)
    (current_stock : Int) (urgency : String)
    (h : dictGet PRODUCT_DB product_id = some product) :
    (∃ r, calculate_reorder product_id current_stock urgency = some r
        ∧ r.recommended_qty
            = ⌊(product.reorder_point : ℚ) * urgency_multiplier urgency * 2⌋)
      ∧ urgency_multiplier "low" = 1
      ∧ urgency_multiplier "normal" = 3 / 2
      ∧ urgency_multiplier "high" = 2
      ∧ (urgency ≠ "low" → urgency ≠ "normal" → urgency ≠ "high" →
          urgency_multiplier urgency = 3 / 2) := by
  refine ⟨?_, by simp [urgency_multiplier], by simp [urgency_multiplier],
    by simp [urgency_multiplier], urgency_multiplier_fallback urgency⟩
  have hm := urgency_multiplier_nonneg urgency
  refine ⟨{ status := reorder_status current_stock product.reorder_point
            current_stock := current_stock
            reorder_point := product.reorder_point
            lead_time := product.lead_time
            recommended_qty := recommended_qty product.reorder_point urgency
            estimated_cost := product.price * (6 / 10)
              * (recommended_qty product.reorder_point urgency) }, ?_, ?_⟩
  · unfold calculate_reorder
    rw [h]
  · show recommended_qty product.reorder_point urgency = _
    rw [recommended_qty, pyInt_eq_floor _ (by positivity)]

/-- C4 witness at `SKU001` (reorder point 10) with urgency "high". -/
theorem C4_recommended_qty_formula_witness :
    (∃ r, calculate_reorder "SKU001" 3 "high" = some r
        ∧ r.recommended_qty
            = ⌊((⟨"Red T-Shirt", "T-Shirt", 29.99, 10, "SUP001",
                  5⟩ : Product).reorder_point : ℚ)
                * urgency_multiplier "high" * 2⌋)
      ∧ urgency_multiplier "low" = 1
      ∧ urgency_multiplier "normal" = 3 / 2
      ∧ urgency_multiplier "high" = 2
      ∧ ("high" ≠ "low" → "high" ≠ "normal" → "high" ≠ "high" →
          urgency_multiplier "high" = 3 / 2) :=
  C4_recommended_qty_formula "SKU001"
    ⟨"Red T-Shirt", "T-Shirt", 29.99, 10, "SUP001", 5⟩ 3 "high" rfl

/-! ### C5 — status classification -/

/-- C5: the status depends only on `current_stock` versus
`reorder_point` and not on urgency: "urgent" iff
`current_stock ≤ reorder_point`, "warning" iff
`reorder_point < current_stock ≤ reorder_point * 1.5`, "adequate"
otherwise; in particular `reorder_point = 10`, `current_stock = 12`
classifies as "warning". -/
theorem C5_status_classification (current_stock : Int) (reorder_point : Nat) :
    (reorder_status current_stock reorder_point = .urgent
        ↔ current_stock ≤ (reorder_point : Int))
      ∧ (reorder_status current_stock reorder_point = .warning
          ↔ ((reorder_point : Int) < current_stock
              ∧ (current_stock : ℚ) ≤ (reorder_point : ℚ) * (3 / 2)))
      ∧ (reorder_status current_stock reorder_point = .adequate
          ↔ ((reorder_point : Int) < current_stock
              ∧ (reorder_point : ℚ) * (3 / 2) < (current_stock : ℚ)))
      ∧ (∀ pid u u',
          (calculate_reorder pid current_stock u).map ReorderReport.status
            = (calculate_reorder pid current_stock u').map ReorderReport.status)
      ∧ reorder_status 12 10 = .warning := by
  refine ⟨?_, ?_, ?_, ?_, ?_⟩
  · simp only [reorder_status]
    split_ifs with h1 h2
    · exact iff_of_true rfl h1
    · exact iff_of_false (by simp) h1
    · exact iff_of_false (by simp) h1
  · simp only [reorder_status, rat_cond_le_iff]
    split_ifs with h1 h2
    · exact iff_of_false (by simp) (by omega)
    · exact iff_of_true rfl (by omega)
    · exact iff_of_false (by simp) (by omega)
  · simp only [reorder_status, rat_cond_le_iff, rat_cond_lt_iff]
    split_ifs with h1 h2
    · exact iff_of_false (by simp) (by omega)
    · exact iff_of_false (by simp) (by omega)
    · exact iff_of_true rfl (by omega)
  · intro pid u u'
    unfold calculate_reorder
    rcases dictGet PRODUCT_DB pid with _ | product <;> simp
  · norm_num [reorder_status]

/-! ### C9 — corrected: positivity needs reorder_point ≥ 1 -/

/-- C9 counterexample: the data model admits `reorder_point = 0`
(`integer ≥ 0`), and there the recommended quantity is
`int(0 * 2.0 * 2) = 0`, which is not strictly positive — so the
claimed invariant `recommended_qty > 0` does not hold over the
documented domain of `reorder_point`. -/
theorem C9_zero_reorder_point_counterexample :
    ¬ (0 < recommended_qty 0 "high") := by
  rw [recommended_qty_high]
  omega

/-- C9 amended: the recommended quantity is strictly positive for
every product actually present in `PRODUCT_DB` (all have
`reorder_point ≥ 1`) and, in general, whenever `reorder_point ≥ 1`;
at `reorder_point = 0` it is `0`. -/
theorem C9_recommended_qty_pos_of_db (urgency : String) :
    (∀ pid product, dictGet PRODUCT_DB pid = some product →
        0 < recommended_qty product.reorder_point urgency)
      ∧ (∀ rp : Nat, 1 ≤ rp → 0 < recommended_qty rp urgency) := by
  refine ⟨?_, fun rp h => recommended_qty_pos rp urgency h⟩
  intro pid product h
  exact recommended_qty_pos _ urgency (PRODUCT_DB_reorder_point_pos pid product h)

/-- C9 witness: for `SKU005` (reorder point 3, the smallest in the
database) with urgency "low", the recommended quantity is positive. -/
theorem C9_recommended_qty_pos_of_db_witness :
    0 < recommended_qty
        (⟨"Winter Jacket", "Jacket", 149.99, 3, "SUP002", 14⟩ : Product).reorder_point
        "low" :=
  (C9_recommended_qty_pos_of_db "low").1 "SKU005"
    ⟨"Winter Jacket", "Jacket", 149.99, 3, "SUP002", 14⟩ rfl

/-! ### C10 — monotonicity in urgency -/

/-- C10: for a fixed reorder point (hence a fixed product), the
recommended quantity is monotonically non-decreasing in urgency:
low ≤ normal ≤ high (closed forms `2·rp ≤ 3·rp ≤ 4·rp`). -/
theorem C10_recommended_qty_monotone (rp : Nat) :
    recommended_qty rp "low" ≤ recommended_qty rp "normal"
      ∧ recommended_qty rp "normal" ≤ recommended_qty rp "high" := by
  rw [recommended_qty_low, recommended_qty_normal, recommended_qty_high]
  omega

end SmartInventory
